import Mathlib

/-!
Shallow embedding of the BitSwanPump ElasticSearch bulk-delivery connector
(bspump/elasticsearch/connection.py) and of the Kafka key filter
(bspump/kafka/keyfilter.py), together with theorems settling the frozen
claims about the natural-language specification.

Modelling conventions:
- items are byte strings, modelled as lists of naturals; only length and
  identity matter to the connector;
- the asyncio delivery queue is a FIFO list, the head being the next entry
  to be popped; the source constructs it as asyncio.Queue() with no maxsize
  argument, so the model queue is an unbounded list and enqueue always
  appends;
- the pub/sub pause and unpause publications are recorded in order in a
  signal trace on the connection state;
- metric counters are integers, since the source adds Python ints that can
  in principle be negative;
- the network interaction of one upload is captured by an HttpOutcome value
  passed in as a parameter: a transport error (OSError on post), a response
  whose body fails to parse as JSON, or a parsed JSON response with a status
  and a body;
- the upload result is Option Bool, the value domain of the Python method:
  none is the bare return (Python None) taken when the item list is empty,
  some false and some true are the explicit returns; the worker loop tests
  the Python truthiness of this value, requeueing unless it is some true.
-/

namespace BSPump

/-- An item is a serialized byte string; the source only uses its length
and its identity. -/
abbrev Item := List Nat

/-- The InsertMetric counter with its two named buckets ok and fail. -/
structure Metrics where
  ok : Int
  fail : Int
deriving Repr, DecidableEq

/-- State of one ElasticSearchBulk object: destination index, aging tick
counter, remaining signed byte capacity and the accumulated items. -/
structure ElasticSearchBulk where
  Index : String
  Aging : Nat
  Capacity : Int
  Items : List Item
deriving Repr, DecidableEq

/-- Constructor ElasticSearchBulk.__init__: aging 0, capacity max_size,
no items. -/
def ElasticSearchBulk.init (index : String) (max_size : Int) : ElasticSearchBulk :=
  { Index := index, Aging := 0, Capacity := max_size, Items := [] }

/-- One step of the loop in ElasticSearchBulk.consume: append the item and
decrement the capacity by its length. -/
def ElasticSearchBulk.consumeStep (b : ElasticSearchBulk) (item : Item) :
    ElasticSearchBulk :=
  { b with Items := b.Items ++ [item], Capacity := b.Capacity - item.length }

/-- ElasticSearchBulk.consume: append every item of the feeder in order,
decrementing the capacity by each length, then reset Aging to 0 and report
whether the capacity is exhausted (Capacity less or equal 0). -/
def ElasticSearchBulk.consume (b : ElasticSearchBulk) (data : List Item) :
    ElasticSearchBulk × Bool :=
  let b1 := data.foldl ElasticSearchBulk.consumeStep b
  let b2 := { b1 with Aging := 0 }
  (b2, decide (b2.Capacity ≤ 0))

/-- One per-item entry of the parsed bulk acknowledgement body. The field
records whether the string "error" occurs in the entry under its "index"
key, which is the test the source applies to count failed insertions. -/
structure RespItem where
  indexHasError : Bool
deriving Repr, DecidableEq

/-- Parsed JSON acknowledgement body: the top-level "errors" flag and the
per-item results list. -/
structure RespBody where
  errors : Bool
  items : List RespItem
deriving Repr, DecidableEq

/-- Outcome of the HTTP interaction of one upload attempt, supplied as a
parameter of the model: osError is an OSError raised by session.post,
badJson is a response whose body fails to parse as JSON, and jsonResp is a
parsed response carrying its status code and body. -/
inductive HttpOutcome where
  | osError
  | badJson (status : Nat)
  | jsonResp (status : Nat) (body : RespBody)
deriving Repr, DecidableEq

/-- Observable effects of one call of ElasticSearchBulk.upload: the metric
counters after the call, whether an HTTP request was issued at all, and the
arguments of the full-failure and partial-failure callback invocations, if
they happened. -/
structure UploadEffects where
  metrics : Metrics
  requested : Bool
  fullErrorCall : Option (List Item × Nat)
  partialErrorCall : Option (List RespItem)
deriving Repr, DecidableEq

/-- ElasticSearchBulk.full_error_callback: the default policy returns False,
which the docstring of the source defines as "the bulk is to be resubmitted
again". -/
def ElasticSearchBulk.full_error_callback (_bulk_items : List Item)
    (_return_code : Nat) : Bool :=
  false

/-- ElasticSearchBulk.upload. Returns the Python return value (none for the
bare return on an empty item list, some b for an explicit boolean return)
together with the observable effects. Branches follow the source: empty
items return early with no request; OSError and unparseable bodies return
some false; a 200 response without the errors flag counts all items ok; a
200 response with the errors flag counts the response entries whose index
object contains "error" as fail and the remainder as ok, invoking the
partial-error callback; any other status counts all items as fail, invokes
the full-error callback with the items and status, and returns its value. -/
def ElasticSearchBulk.upload (b : ElasticSearchBulk) (resp : HttpOutcome)
    (m : Metrics) : Option Bool × UploadEffects :=
  let items_count := b.Items.length
  if items_count = 0 then
    (none, { metrics := m, requested := false,
             fullErrorCall := none, partialErrorCall := none })
  else
    match resp with
    | HttpOutcome.osError =>
        (some false, { metrics := m, requested := true,
                       fullErrorCall := none, partialErrorCall := none })
    | HttpOutcome.badJson _ =>
        (some false, { metrics := m, requested := true,
                       fullErrorCall := none, partialErrorCall := none })
    | HttpOutcome.jsonResp status body =>
        if status = 200 then
          if body.errors = false then
            (some true,
             { metrics := { m with ok := m.ok + items_count },
               requested := true,
               fullErrorCall := none, partialErrorCall := none })
          else
            let counter := (body.items.filter (fun i => i.indexHasError)).length
            (some true,
             { metrics := { m with fail := m.fail + counter,
                                   ok := m.ok + ((items_count : Int) - counter) },
               requested := true,
               fullErrorCall := none, partialErrorCall := some body.items })
        else
          (some (ElasticSearchBulk.full_error_callback b.Items status),
           { metrics := { m with fail := m.fail + items_count },
             requested := true,
             fullErrorCall := some (b.Items, status), partialErrorCall := none })

/-- An entry of the delivery queue: either a sealed bulk or the poison value
(Python None) that tells one worker to terminate during shutdown. -/
inductive QueueEntry where
  | poison
  | bulk (b : ElasticSearchBulk)
deriving Repr, DecidableEq

/-- A pub/sub publication of the connection: pause is the publication of
"ElasticSearchConnection.pause!" and unpause that of
"ElasticSearchConnection.unpause!". -/
inductive Signal where
  | pause
  | unpause
deriving Repr, DecidableEq

/-- The part of the ElasticSearchConnection state the claims are about: the
delivery queue (head is popped next), the configured
output_queue_max_size, the map of open bulks by index (an association list
in insertion order, mirroring the Python dict), the configured
bulk_out_max_size, the insert metric counters and the trace of published
pause and unpause signals. -/
structure ElasticSearchConnection where
  output_queue : List QueueEntry
  output_queue_max_size : Nat
  bulks : List (String × ElasticSearchBulk)
  bulk_out_max_size : Int
  metrics : Metrics
  signals : List Signal
deriving Repr, DecidableEq

/-- ElasticSearchConnection.enqueue: put_nowait the bulk on the queue (the
queue is constructed without a maxsize, so the append is unconditional),
then publish pause exactly when the resulting queue size equals
output_queue_max_size. -/
def ElasticSearchConnection.enqueue (s : ElasticSearchConnection)
    (bulk : ElasticSearchBulk) : ElasticSearchConnection :=
  let q := s.output_queue ++ [QueueEntry.bulk bulk]
  let s1 := { s with output_queue := q }
  if q.length = s.output_queue_max_size then
    { s1 with signals := s1.signals ++ [Signal.pause] }
  else
    s1

/-- ElasticSearchConnection.consume: on a none feeder do nothing (the
source returns early); otherwise look up the open bulk of the index,
creating one with capacity bulk_out_max_size and storing it when absent,
feed the data to ElasticSearchBulk.consume, and when the bulk reports full
delete it from the map and enqueue it; otherwise keep the updated bulk in
place. -/
def ElasticSearchConnection.consume (s : ElasticSearchConnection)
    (index : String) (data_feeder_generator : Option (List Item)) :
    ElasticSearchConnection :=
  match data_feeder_generator with
  | none => s
  | some data =>
    let bulk := match s.bulks.lookup index with
      | some b => b
      | none => ElasticSearchBulk.init index s.bulk_out_max_size
    let bulks0 := match s.bulks.lookup index with
      | some _ => s.bulks
      | none => s.bulks ++ [(index, bulk)]
    let r := ElasticSearchBulk.consume bulk data
    if r.2 then
      ElasticSearchConnection.enqueue
        { s with bulks := bulks0.filter (fun p => p.1 != index) } r.1
    else
      { s with bulks := bulks0.map (fun p => if p.1 = index then (index, r.1) else p) }

/-- ElasticSearchConnection.flush, called by _on_tick on every periodic
tick (and with forced true on shutdown): increment the Aging of every open
bulk, collect those whose incremented Aging reaches 2 (or all of them when
forced), remove them from the map and enqueue each in map order. -/
def ElasticSearchConnection.flush (s : ElasticSearchConnection)
    (forced : Bool) : ElasticSearchConnection :=
  let aged := s.bulks.map (fun p => (p.1, { p.2 with Aging := p.2.Aging + 1 }))
  let keep := aged.filter (fun p => !(decide (2 ≤ p.2.Aging) || forced))
  let out := aged.filter (fun p => decide (2 ≤ p.2.Aging) || forced)
  (out.map Prod.snd).foldl ElasticSearchConnection.enqueue { s with bulks := keep }

/-- Outcome of one iteration of the while loop of
ElasticSearchConnection._loader for the worker that runs it: blocked means
the queue was empty and the await suspends; poisoned means the popped entry
was the poison value and the loop breaks; delivered carries the bulk after
a successful upload (its Items cleared) and the loop continues; requeued
means the upload result was not True, the bulk was enqueued again and the
loop breaks, terminating the worker. -/
inductive LoaderResult where
  | blocked
  | poisoned
  | delivered (bulk : ElasticSearchBulk)
  | requeued
deriving Repr, DecidableEq

/-- One iteration of the delivery loop of ElasticSearchConnection._loader,
with the HTTP outcome of the upload attempt supplied as a parameter. The
popped entry is tested against the poison first and the loop breaks before
the unpause check; for a bulk, unpause is published exactly when the queue
size after the pop equals output_queue_max_size minus 1 (compared over the
integers, as in Python); then the bulk is uploaded, and unless the result
is True the bulk is requeued and the loop breaks, while on True its Items
are cleared and the loop continues. -/
def ElasticSearchConnection.loaderIteration (s : ElasticSearchConnection)
    (resp : HttpOutcome) : ElasticSearchConnection × LoaderResult :=
  match s.output_queue with
  | [] => (s, LoaderResult.blocked)
  | QueueEntry.poison :: rest =>
      ({ s with output_queue := rest }, LoaderResult.poisoned)
  | QueueEntry.bulk bulk :: rest =>
      let s1 := { s with output_queue := rest }
      let s2 := if (rest.length : Int) = (s1.output_queue_max_size : Int) - 1
        then { s1 with signals := s1.signals ++ [Signal.unpause] }
        else s1
      let r := ElasticSearchBulk.upload bulk resp s2.metrics
      let s3 := { s2 with metrics := r.2.metrics }
      if r.1 = some true then
        (s3, LoaderResult.delivered { bulk with Items := [] })
      else
        (ElasticSearchConnection.enqueue s3 bulk, LoaderResult.requeued)

/-- Kafka message context as seen by KafkaKeyFilter: the key of the Kafka
message, bytes or Python None. -/
structure KafkaCtx where
  key : Option Item
deriving Repr, DecidableEq

/-- KafkaKeyFilter.__init__: a single key argument is wrapped in a
one-element collection, a list argument is taken as the allow-list; only
membership in the resulting frozenset matters. -/
def KafkaKeyFilter.initKeys (keys : Item ⊕ List Item) : List Item :=
  match keys with
  | Sum.inl k => [k]
  | Sum.inr ks => ks

/-- KafkaKeyFilter.process: the context must contain a kafka entry or the
assertion fails (modelled as the error case); then the event passes through
exactly when the message key is not None and is a member of the allow-list,
and is otherwise replaced by none, discarding the record. -/
def KafkaKeyFilter.process {E : Type} (Keys : List Item)
    (context_kafka : Option KafkaCtx) (event : E) : Except Unit (Option E) :=
  match context_kafka with
  | none => Except.error ()
  | some kafka_ctx =>
    match kafka_ctx.key with
    | some key => if key ∈ Keys then Except.ok (some event) else Except.ok none
    | none => Except.ok none

/-! Concrete objects used by counterexamples and witnesses. -/

/-- A sample sealed bulk holding two one-byte items. -/
def bulkA : ElasticSearchBulk :=
  { Index := "a", Aging := 0, Capacity := 8, Items := [[0], [1]] }

/-- A sample bulk with an empty item list, as produced by consuming an
empty feeder and aging out. -/
def bulkE : ElasticSearchBulk :=
  { Index := "e", Aging := 0, Capacity := 8, Items := [] }

/-- Metric counters at zero. -/
def metrics0 : Metrics := { ok := 0, fail := 0 }

/-- A connection whose queue already holds exactly output_queue_max_size
entries (capacity 1, one entry). -/
def connC1 : ElasticSearchConnection :=
  { output_queue := [QueueEntry.bulk bulkA], output_queue_max_size := 1,
    bulks := [], bulk_out_max_size := 8, metrics := metrics0, signals := [] }

/-- A connection at capacity, used to show a push at capacity publishes no
pause. -/
def connC3 : ElasticSearchConnection :=
  { output_queue := [QueueEntry.bulk bulkA], output_queue_max_size := 1,
    bulks := [], bulk_out_max_size := 8, metrics := metrics0, signals := [] }

/-- A connection whose queue head is the poison value and whose depth after
the pop equals output_queue_max_size minus 1. -/
def connC4 : ElasticSearchConnection :=
  { output_queue := [QueueEntry.poison, QueueEntry.bulk bulkA],
    output_queue_max_size := 2,
    bulks := [], bulk_out_max_size := 8, metrics := metrics0, signals := [] }

/-- A connection with one open bulk and an empty queue, used for the aging
claim. -/
def connC8 : ElasticSearchConnection :=
  { output_queue := [], output_queue_max_size := 10,
    bulks := [("a", bulkA)], bulk_out_max_size := 8, metrics := metrics0,
    signals := [] }

/-- An acknowledgement body reporting one of two items errored. -/
def bodyC2 : RespBody :=
  { errors := true, items := [{ indexHasError := true }, { indexHasError := false }] }

/-- A parseable acknowledgement body with no per-item results, as may
accompany a non-success status. -/
def bodyC7 : RespBody := { errors := false, items := [] }

/-! Helper lemmas about the fold inside ElasticSearchBulk.consume. -/

theorem consume_foldl_Items (data : List Item) :
    ∀ b : ElasticSearchBulk,
      (data.foldl ElasticSearchBulk.consumeStep b).Items = b.Items ++ data := by
  induction data with
  | nil => intro b; simp
  | cons x xs ih =>
      intro b
      simp [List.foldl_cons, ih, ElasticSearchBulk.consumeStep]

theorem consume_foldl_Capacity (data : List Item) :
    ∀ b : ElasticSearchBulk,
      (data.foldl ElasticSearchBulk.consumeStep b).Capacity
        = b.Capacity - (data.map (fun i => (i.length : Int))).sum := by
  induction data with
  | nil => intro b; simp
  | cons x xs ih =>
      intro b
      simp [List.foldl_cons, ih, ElasticSearchBulk.consumeStep]
      ring

/-! Helper lemmas about enqueue: the queue append is unconditional and the
other fields except the signal trace are untouched. -/

theorem enqueue_output_queue (s : ElasticSearchConnection)
    (b : ElasticSearchBulk) :
    (s.enqueue b).output_queue = s.output_queue ++ [QueueEntry.bulk b] := by
  by_cases h : s.output_queue.length + 1 = s.output_queue_max_size
  · simp [ElasticSearchConnection.enqueue, h]
  · simp [ElasticSearchConnection.enqueue, h]

theorem enqueue_metrics (s : ElasticSearchConnection) (b : ElasticSearchBulk) :
    (s.enqueue b).metrics = s.metrics := by
  by_cases h : s.output_queue.length + 1 = s.output_queue_max_size
  · simp [ElasticSearchConnection.enqueue, h]
  · simp [ElasticSearchConnection.enqueue, h]

theorem enqueue_bulks (s : ElasticSearchConnection) (b : ElasticSearchBulk) :
    (s.enqueue b).bulks = s.bulks := by
  by_cases h : s.output_queue.length + 1 = s.output_queue_max_size
  · simp [ElasticSearchConnection.enqueue, h]
  · simp [ElasticSearchConnection.enqueue, h]

theorem enqueue_max_size (s : ElasticSearchConnection) (b : ElasticSearchBulk) :
    (s.enqueue b).output_queue_max_size = s.output_queue_max_size := by
  by_cases h : s.output_queue.length + 1 = s.output_queue_max_size
  · simp [ElasticSearchConnection.enqueue, h]
  · simp [ElasticSearchConnection.enqueue, h]

theorem enqueue_count_unpause (s : ElasticSearchConnection)
    (b : ElasticSearchBulk) :
    (s.enqueue b).signals.count Signal.unpause
      = s.signals.count Signal.unpause := by
  by_cases h : s.output_queue.length + 1 = s.output_queue_max_size
  · simp [ElasticSearchConnection.enqueue, h, List.count_append]
  · simp [ElasticSearchConnection.enqueue, h]

/-! Helper lemmas characterizing ElasticSearchBulk.upload on the response
classes the claims distinguish. -/

theorem upload_empty_items (b : ElasticSearchBulk) (resp : HttpOutcome)
    (m : Metrics) (he : b.Items = []) :
    b.upload resp m
      = (none, { metrics := m, requested := false,
                 fullErrorCall := none, partialErrorCall := none }) := by
  unfold ElasticSearchBulk.upload
  simp [he]

theorem upload_transport_failure (b : ElasticSearchBulk) (resp : HttpOutcome)
    (m : Metrics)
    (hfail : resp = HttpOutcome.osError ∨ ∃ st, resp = HttpOutcome.badJson st) :
    (b.upload resp m).1 ≠ some true ∧ (b.upload resp m).2.metrics = m := by
  unfold ElasticSearchBulk.upload
  rcases hfail with h | ⟨st, h⟩ <;> subst h <;>
    by_cases hi : b.Items.length = 0 <;> simp [hi]

theorem upload_200_parsed (b : ElasticSearchBulk) (body : RespBody)
    (m : Metrics) (hn : 0 < b.Items.length)
    (herr : (body.items.filter (fun i => i.indexHasError)).length ≠ 0 →
      body.errors = true) :
    (b.upload (HttpOutcome.jsonResp 200 body) m).1 = some true ∧
    (b.upload (HttpOutcome.jsonResp 200 body) m).2.metrics.fail
      = m.fail + ((body.items.filter (fun i => i.indexHasError)).length : Int) ∧
    (b.upload (HttpOutcome.jsonResp 200 body) m).2.metrics.ok
      = m.ok + ((b.Items.length : Int)
          - ((body.items.filter (fun i => i.indexHasError)).length : Int)) := by
  unfold ElasticSearchBulk.upload
  rw [if_neg (by omega)]
  by_cases he : body.errors = false
  · have hk0 : (body.items.filter (fun i => i.indexHasError)).length = 0 := by
      by_contra hc
      rw [herr hc] at he
      simp at he
    simp [he, hk0]
  · simp [he]

theorem upload_non200 (b : ElasticSearchBulk) (status : Nat) (body : RespBody)
    (m : Metrics) (hn : 0 < b.Items.length) (hs : status ≠ 200) :
    b.upload (HttpOutcome.jsonResp status body) m
      = (some false,
         { metrics := { m with fail := m.fail + (b.Items.length : Int) },
           requested := true, fullErrorCall := some (b.Items, status),
           partialErrorCall := none }) := by
  unfold ElasticSearchBulk.upload ElasticSearchBulk.full_error_callback
  rw [if_neg (by omega)]
  simp [hs]

/-- One loader iteration on a state whose queue head is a bulk whose upload
result is not True: the bulk is requeued at the back of the queue, the
outcome is requeued (the worker breaks out of its loop), and the metrics
are those left by the upload call. -/
theorem loaderIteration_requeue (bulk : ElasticSearchBulk)
    (rest : List QueueEntry) (maxq : Nat)
    (bl : List (String × ElasticSearchBulk)) (bos : Int) (m : Metrics)
    (sig : List Signal) (resp : HttpOutcome)
    (hs : (ElasticSearchBulk.upload bulk resp m).1 ≠ some true) :
    ((ElasticSearchConnection.mk (QueueEntry.bulk bulk :: rest) maxq bl bos
        m sig).loaderIteration resp).2 = LoaderResult.requeued ∧
    ((ElasticSearchConnection.mk (QueueEntry.bulk bulk :: rest) maxq bl bos
        m sig).loaderIteration resp).1.output_queue
      = rest ++ [QueueEntry.bulk bulk] ∧
    ((ElasticSearchConnection.mk (QueueEntry.bulk bulk :: rest) maxq bl bos
        m sig).loaderIteration resp).1.metrics
      = (ElasticSearchBulk.upload bulk resp m).2.metrics := by
  unfold ElasticSearchConnection.loaderIteration
  by_cases hd : ((rest.length : Int) = (maxq : Int) - 1) <;>
    simp [hd, hs, enqueue_output_queue, enqueue_metrics]

/-- C5: consume appends each item to Items in order, decrements Capacity by
each item's byte length, resets Aging to 0, never fails (it is a total
function), and returns true if and only if the remaining capacity is at
most 0 after the appends. -/
theorem C5_bulk_consume_correct (b : ElasticSearchBulk) (data : List Item) :
    (ElasticSearchBulk.consume b data).1.Items = b.Items ++ data ∧
    (ElasticSearchBulk.consume b data).1.Capacity
      = b.Capacity - (data.map (fun i => (i.length : Int))).sum ∧
    (ElasticSearchBulk.consume b data).1.Aging = 0 ∧
    ((ElasticSearchBulk.consume b data).2 = true ↔
      (ElasticSearchBulk.consume b data).1.Capacity ≤ 0) := by
  unfold ElasticSearchBulk.consume
  refine ⟨?_, ?_, rfl, ?_⟩
  · simpa using consume_foldl_Items data b
  · simpa using consume_foldl_Capacity data b
  · simp

/-- C9: for every event whose context contains a kafka entry, process
returns the event unchanged exactly when the kafka key is not None and is a
member of the allow-list Keys, and in every other case returns None,
discarding the record. -/
theorem C9_keyfilter_correct {E : Type} (Keys : List Item) (kctx : KafkaCtx)
    (event : E) :
    (KafkaKeyFilter.process Keys (some kctx) event = Except.ok (some event) ↔
      ∃ k, kctx.key = some k ∧ k ∈ Keys) ∧
    (KafkaKeyFilter.process Keys (some kctx) event = Except.ok (some event) ∨
      KafkaKeyFilter.process Keys (some kctx) event = Except.ok none) := by
  obtain ⟨key⟩ := kctx
  cases key with
  | none => simp [KafkaKeyFilter.process]
  | some k =>
      by_cases hk : k ∈ Keys
      · simp [KafkaKeyFilter.process, hk]
      · simp [KafkaKeyFilter.process, hk]

/-- C1 counterexample: with configured capacity 1 and a queue already
holding 1 entry, a further push raises the depth to 2, strictly above the
configured capacity, refuting the boundedness claim. -/
theorem C1_counterexample :
    connC1.output_queue.length = connC1.output_queue_max_size ∧
    (connC1.enqueue bulkA).output_queue.length
      = connC1.output_queue_max_size + 1 := by
  constructor <;> rfl

/-- C1 (amended): the delivery queue is not bounded by the configured
capacity: enqueue appends its bulk unconditionally, so every push raises
the depth by exactly one, and a push arriving at depth N yields depth N+1;
the configured output_queue_max_size only selects when the pause signal is
published. -/
theorem C1_enqueue_unbounded (s : ElasticSearchConnection)
    (b : ElasticSearchBulk) :
    (s.enqueue b).output_queue = s.output_queue ++ [QueueEntry.bulk b] ∧
    (s.enqueue b).output_queue.length = s.output_queue.length + 1 := by
  unfold ElasticSearchConnection.enqueue
  have h' : (s.output_queue ++ [QueueEntry.bulk b]).length
      = s.output_queue.length + 1 := by simp
  by_cases h : s.output_queue.length + 1 = s.output_queue_max_size
  · simp [h', h]
  · simp [h', h]

/-- C3 counterexample: pushing to a queue already at capacity (capacity 1,
one entry held) publishes no pause signal at all, not exactly one as the
claim states: the resulting depth is 2, which differs from the configured
maximum. -/
theorem C3_counterexample :
    connC3.output_queue.length = connC3.output_queue_max_size ∧
    (connC3.enqueue bulkA).signals = connC3.signals := by
  constructor <;> rfl

/-- C3 (amended): pause signalling is edge-triggered around the exact
capacity value: a push publishes exactly one pause when the resulting
depth equals the configured maximum, and publishes nothing otherwise — in
particular a push to a queue already at or above capacity publishes no
pause, and no pause refires until the depth has dropped below the maximum
and a later push again makes the depth exactly the maximum. -/
theorem C3_pause_edge_triggered (s : ElasticSearchConnection)
    (b : ElasticSearchBulk) :
    (s.enqueue b).signals = s.signals ++
      (if s.output_queue.length + 1 = s.output_queue_max_size
        then [Signal.pause] else []) := by
  unfold ElasticSearchConnection.enqueue
  by_cases h : s.output_queue.length + 1 = s.output_queue_max_size
  · simp [h]
  · simp [h]

/-- C4 counterexample: with configured maximum 2 and queue [poison, bulk],
popping the poison leaves depth 1 = max minus 1, yet the worker breaks out
of its loop before the resume check and publishes nothing, refuting the
claim for poison pops. -/
theorem C4_counterexample :
    connC4.output_queue = [QueueEntry.poison, QueueEntry.bulk bulkA] ∧
    connC4.output_queue_max_size = 2 ∧
    (connC4.loaderIteration HttpOutcome.osError).2 = LoaderResult.poisoned ∧
    (connC4.loaderIteration HttpOutcome.osError).1.signals = [] := by
  refine ⟨rfl, rfl, rfl, rfl⟩

/-- C4 (amended): when the popped entry is a sealed batch and the queue
depth after the pop equals the configured maximum minus 1, exactly one
resume signal is published; when the popped entry is the poison value the
worker breaks before the check and no resume is published. -/
theorem C4_resume_requires_bulk (bulk : ElasticSearchBulk)
    (rest : List QueueEntry) (maxq : Nat)
    (bl : List (String × ElasticSearchBulk)) (bos : Int) (m : Metrics)
    (sig : List Signal) (resp : HttpOutcome)
    (hd : (rest.length : Int) = (maxq : Int) - 1) :
    ((ElasticSearchConnection.mk (QueueEntry.bulk bulk :: rest) maxq bl bos
        m sig).loaderIteration resp).1.signals.count Signal.unpause
      = sig.count Signal.unpause + 1 := by
  by_cases hu : (ElasticSearchBulk.upload bulk resp m).1 = some true <;>
    simp [ElasticSearchConnection.loaderIteration, hd, hu,
      enqueue_count_unpause, List.count_append]

/-- C4 witness: the amended theorem applied to a queue [bulk] with
configured maximum 1: the pop leaves depth 0 = 1 - 1 and one resume is
published. -/
theorem C4_resume_requires_bulk_witness :
    ((([] : List QueueEntry).length : Int) = ((1 : Nat) : Int) - 1) ∧
    ((ElasticSearchConnection.mk (QueueEntry.bulk bulkA :: []) 1 [] 8
        metrics0 []).loaderIteration HttpOutcome.osError).1.signals.count
          Signal.unpause
      = ([] : List Signal).count Signal.unpause + 1 :=
  ⟨by decide,
   C4_resume_requires_bulk bulkA [] 1 [] 8 metrics0 [] HttpOutcome.osError
     (by decide)⟩

/-- C2: for a delivered batch of n items acknowledged with status 200 and
exactly k items reported errored (a well-formed acknowledgement sets the
errors flag whenever k is positive), upload returns True, the fail counter
rises by exactly k, the ok counter by exactly n - k, and the worker does
not requeue the batch: the iteration outcome is delivered with the batch
Items cleared and the queue loses its head. -/
theorem C2_partial_failure_accounting (bulk : ElasticSearchBulk)
    (rest : List QueueEntry) (maxq : Nat)
    (bl : List (String × ElasticSearchBulk)) (bos : Int) (m : Metrics)
    (sig : List Signal) (body : RespBody)
    (hn : 0 < bulk.Items.length)
    (hk : (body.items.filter (fun i => i.indexHasError)).length
      ≤ bulk.Items.length)
    (herr : (body.items.filter (fun i => i.indexHasError)).length ≠ 0 →
      body.errors = true) :
    (ElasticSearchBulk.upload bulk (HttpOutcome.jsonResp 200 body) m).1
      = some true ∧
    ((ElasticSearchConnection.mk (QueueEntry.bulk bulk :: rest) maxq bl bos
        m sig).loaderIteration (HttpOutcome.jsonResp 200 body)).1.metrics.fail
      = m.fail + ((body.items.filter (fun i => i.indexHasError)).length : Int) ∧
    ((ElasticSearchConnection.mk (QueueEntry.bulk bulk :: rest) maxq bl bos
        m sig).loaderIteration (HttpOutcome.jsonResp 200 body)).1.metrics.ok
      = m.ok + ((bulk.Items.length : Int)
          - ((body.items.filter (fun i => i.indexHasError)).length : Int)) ∧
    ((ElasticSearchConnection.mk (QueueEntry.bulk bulk :: rest) maxq bl bos
        m sig).loaderIteration (HttpOutcome.jsonResp 200 body)).1.output_queue
      = rest ∧
    ((ElasticSearchConnection.mk (QueueEntry.bulk bulk :: rest) maxq bl bos
        m sig).loaderIteration (HttpOutcome.jsonResp 200 body)).2
      = LoaderResult.delivered { bulk with Items := [] } := by
  obtain ⟨h1, h2, h3⟩ := upload_200_parsed bulk body m hn herr
  refine ⟨h1, ?_, ?_, ?_, ?_⟩ <;>
    by_cases hd : ((rest.length : Int) = (maxq : Int) - 1) <;>
      simp [ElasticSearchConnection.loaderIteration, hd, h1, h2, h3]

/-- C2 witness: a two-item batch acknowledged with one item errored: fail
rises by 1, ok by 1, the batch is delivered with cleared Items and the
queue is drained. -/
theorem C2_partial_failure_accounting_witness :
    (0 < bulkA.Items.length ∧
     (bodyC2.items.filter (fun i => i.indexHasError)).length
       ≤ bulkA.Items.length ∧
     ((bodyC2.items.filter (fun i => i.indexHasError)).length ≠ 0 →
       bodyC2.errors = true)) ∧
    ((ElasticSearchBulk.upload bulkA (HttpOutcome.jsonResp 200 bodyC2)
        metrics0).1 = some true ∧
     ((ElasticSearchConnection.mk (QueueEntry.bulk bulkA :: []) 10 [] 8
        metrics0 []).loaderIteration (HttpOutcome.jsonResp 200 bodyC2)).1.metrics.fail
       = metrics0.fail
           + ((bodyC2.items.filter (fun i => i.indexHasError)).length : Int) ∧
     ((ElasticSearchConnection.mk (QueueEntry.bulk bulkA :: []) 10 [] 8
        metrics0 []).loaderIteration (HttpOutcome.jsonResp 200 bodyC2)).1.metrics.ok
       = metrics0.ok + ((bulkA.Items.length : Int)
           - ((bodyC2.items.filter (fun i => i.indexHasError)).length : Int)) ∧
     ((ElasticSearchConnection.mk (QueueEntry.bulk bulkA :: []) 10 [] 8
        metrics0 []).loaderIteration (HttpOutcome.jsonResp 200 bodyC2)).1.output_queue
       = [] ∧
     ((ElasticSearchConnection.mk (QueueEntry.bulk bulkA :: []) 10 [] 8
        metrics0 []).loaderIteration (HttpOutcome.jsonResp 200 bodyC2)).2
       = LoaderResult.delivered { bulkA with Items := [] }) :=
  ⟨⟨by decide, by decide, by decide⟩,
   C2_partial_failure_accounting bulkA [] 10 [] 8 metrics0 [] bodyC2
     (by decide) (by decide) (by decide)⟩

/-- C6: on a transport error (OSError) or an acknowledgement body that
fails to parse as JSON, the batch is re-enqueued at the back of the
delivery queue as the very same object (its Items unchanged), the worker
breaks out of its running loop, and no counter moves. -/
theorem C6_full_failure_requeues_and_terminates (bulk : ElasticSearchBulk)
    (rest : List QueueEntry) (maxq : Nat)
    (bl : List (String × ElasticSearchBulk)) (bos : Int) (m : Metrics)
    (sig : List Signal) (resp : HttpOutcome)
    (hfail : resp = HttpOutcome.osError ∨
      ∃ st, resp = HttpOutcome.badJson st) :
    ((ElasticSearchConnection.mk (QueueEntry.bulk bulk :: rest) maxq bl bos
        m sig).loaderIteration resp).2 = LoaderResult.requeued ∧
    ((ElasticSearchConnection.mk (QueueEntry.bulk bulk :: rest) maxq bl bos
        m sig).loaderIteration resp).1.output_queue
      = rest ++ [QueueEntry.bulk bulk] ∧
    ((ElasticSearchConnection.mk (QueueEntry.bulk bulk :: rest) maxq bl bos
        m sig).loaderIteration resp).1.metrics = m := by
  obtain ⟨h1, h2⟩ := upload_transport_failure bulk resp m hfail
  obtain ⟨r1, r2, r3⟩ :=
    loaderIteration_requeue bulk rest maxq bl bos m sig resp h1
  exact ⟨r1, r2, by rw [r3, h2]⟩

/-- C6 witness: a transport error on the two-item batch requeues exactly
that batch and terminates the worker, leaving the metrics at zero. -/
theorem C6_full_failure_requeues_and_terminates_witness :
    (HttpOutcome.osError = HttpOutcome.osError ∨
      ∃ st, HttpOutcome.osError = HttpOutcome.badJson st) ∧
    (((ElasticSearchConnection.mk (QueueEntry.bulk bulkA :: []) 10 [] 8
        metrics0 []).loaderIteration HttpOutcome.osError).2
       = LoaderResult.requeued ∧
     ((ElasticSearchConnection.mk (QueueEntry.bulk bulkA :: []) 10 [] 8
        metrics0 []).loaderIteration HttpOutcome.osError).1.output_queue
       = [] ++ [QueueEntry.bulk bulkA] ∧
     ((ElasticSearchConnection.mk (QueueEntry.bulk bulkA :: []) 10 [] 8
        metrics0 []).loaderIteration HttpOutcome.osError).1.metrics
       = metrics0) :=
  ⟨Or.inl rfl,
   C6_full_failure_requeues_and_terminates bulkA [] 10 [] 8 metrics0 []
     HttpOutcome.osError (Or.inl rfl)⟩

/-- C7: a parseable acknowledgement with a status other than 200 makes
upload increment the fail counter by the full item count and leave the ok
counter alone, invoke the full-error callback with the batch Items and the
status code, and return its value; since the default callback returns
False, meaning resubmit, the worker requeues the batch and breaks out of
its running loop. -/
theorem C7_non_success_status (bulk : ElasticSearchBulk)
    (rest : List QueueEntry) (maxq : Nat)
    (bl : List (String × ElasticSearchBulk)) (bos : Int) (m : Metrics)
    (sig : List Signal) (status : Nat) (body : RespBody)
    (hn : 0 < bulk.Items.length) (hs : status ≠ 200) :
    (ElasticSearchBulk.upload bulk (HttpOutcome.jsonResp status body)
        m).2.fullErrorCall = some (bulk.Items, status) ∧
    ElasticSearchBulk.full_error_callback bulk.Items status = false ∧
    (ElasticSearchBulk.upload bulk (HttpOutcome.jsonResp status body) m).1
      = some false ∧
    ((ElasticSearchConnection.mk (QueueEntry.bulk bulk :: rest) maxq bl bos
        m sig).loaderIteration (HttpOutcome.jsonResp status body)).1.metrics.fail
      = m.fail + (bulk.Items.length : Int) ∧
    ((ElasticSearchConnection.mk (QueueEntry.bulk bulk :: rest) maxq bl bos
        m sig).loaderIteration (HttpOutcome.jsonResp status body)).1.metrics.ok
      = m.ok ∧
    ((ElasticSearchConnection.mk (QueueEntry.bulk bulk :: rest) maxq bl bos
        m sig).loaderIteration (HttpOutcome.jsonResp status body)).1.output_queue
      = rest ++ [QueueEntry.bulk bulk] ∧
    ((ElasticSearchConnection.mk (QueueEntry.bulk bulk :: rest) maxq bl bos
        m sig).loaderIteration (HttpOutcome.jsonResp status body)).2
      = LoaderResult.requeued := by
  have hu := upload_non200 bulk status body m hn hs
  have h1 : (ElasticSearchBulk.upload bulk (HttpOutcome.jsonResp status body)
      m).1 ≠ some true := by
    rw [hu]; simp
  obtain ⟨r1, r2, r3⟩ := loaderIteration_requeue bulk rest maxq bl bos m sig
    (HttpOutcome.jsonResp status body) h1
  refine ⟨by rw [hu], rfl, by rw [hu], ?_, ?_, r2, r1⟩
  · rw [r3, hu]
  · rw [r3, hu]

/-- C7 witness: status 500 on the two-item batch counts two failures,
invokes the full-error callback with the items and 500, and the batch is
requeued while the worker terminates. -/
theorem C7_non_success_status_witness :
    (0 < bulkA.Items.length ∧ (500 : Nat) ≠ 200) ∧
    ((ElasticSearchBulk.upload bulkA (HttpOutcome.jsonResp 500 bodyC7)
        metrics0).2.fullErrorCall = some (bulkA.Items, 500) ∧
     ElasticSearchBulk.full_error_callback bulkA.Items 500 = false ∧
     (ElasticSearchBulk.upload bulkA (HttpOutcome.jsonResp 500 bodyC7)
        metrics0).1 = some false ∧
     ((ElasticSearchConnection.mk (QueueEntry.bulk bulkA :: []) 10 [] 8
        metrics0 []).loaderIteration (HttpOutcome.jsonResp 500 bodyC7)).1.metrics.fail
       = metrics0.fail + (bulkA.Items.length : Int) ∧
     ((ElasticSearchConnection.mk (QueueEntry.bulk bulkA :: []) 10 [] 8
        metrics0 []).loaderIteration (HttpOutcome.jsonResp 500 bodyC7)).1.metrics.ok
       = metrics0.ok ∧
     ((ElasticSearchConnection.mk (QueueEntry.bulk bulkA :: []) 10 [] 8
        metrics0 []).loaderIteration (HttpOutcome.jsonResp 500 bodyC7)).1.output_queue
       = [] ++ [QueueEntry.bulk bulkA] ∧
     ((ElasticSearchConnection.mk (QueueEntry.bulk bulkA :: []) 10 [] 8
        metrics0 []).loaderIteration (HttpOutcome.jsonResp 500 bodyC7)).2
       = LoaderResult.requeued) :=
  ⟨⟨by decide, by decide⟩,
   C7_non_success_status bulkA [] 10 [] 8 metrics0 [] 500 bodyC7
     (by decide) (by decide)⟩

/-- C10: a dequeued batch with an empty Items list makes upload return the
bare None without issuing any HTTP request; the worker treats the falsy
result as a failure, re-enqueues the empty batch unchanged, breaks out of
its loop, and no counter moves, so the batch is never recorded as
delivered and is requeued on every attempt. -/
theorem C10_empty_bulk_never_delivered (bulk : ElasticSearchBulk)
    (rest : List QueueEntry) (maxq : Nat)
    (bl : List (String × ElasticSearchBulk)) (bos : Int) (m : Metrics)
    (sig : List Signal) (resp : HttpOutcome)
    (he : bulk.Items = []) :
    (ElasticSearchBulk.upload bulk resp m).1 = none ∧
    (ElasticSearchBulk.upload bulk resp m).2.requested = false ∧
    ((ElasticSearchConnection.mk (QueueEntry.bulk bulk :: rest) maxq bl bos
        m sig).loaderIteration resp).2 = LoaderResult.requeued ∧
    ((ElasticSearchConnection.mk (QueueEntry.bulk bulk :: rest) maxq bl bos
        m sig).loaderIteration resp).1.output_queue
      = rest ++ [QueueEntry.bulk bulk] ∧
    ((ElasticSearchConnection.mk (QueueEntry.bulk bulk :: rest) maxq bl bos
        m sig).loaderIteration resp).1.metrics = m := by
  have hu := upload_empty_items bulk resp m he
  have h1 : (ElasticSearchBulk.upload bulk resp m).1 ≠ some true := by
    rw [hu]; simp
  obtain ⟨r1, r2, r3⟩ :=
    loaderIteration_requeue bulk rest maxq bl bos m sig resp h1
  refine ⟨by rw [hu], by rw [hu], r1, r2, by rw [r3, hu]⟩

/-- C10 witness: the empty batch popped alone from the queue is requeued
unchanged with untouched metrics and the worker terminates. -/
theorem C10_empty_bulk_never_delivered_witness :
    bulkE.Items = [] ∧
    ((ElasticSearchBulk.upload bulkE HttpOutcome.osError metrics0).1 = none ∧
     (ElasticSearchBulk.upload bulkE HttpOutcome.osError
        metrics0).2.requested = false ∧
     ((ElasticSearchConnection.mk (QueueEntry.bulk bulkE :: []) 10 [] 8
        metrics0 []).loaderIteration HttpOutcome.osError).2
       = LoaderResult.requeued ∧
     ((ElasticSearchConnection.mk (QueueEntry.bulk bulkE :: []) 10 [] 8
        metrics0 []).loaderIteration HttpOutcome.osError).1.output_queue
       = [] ++ [QueueEntry.bulk bulkE] ∧
     ((ElasticSearchConnection.mk (QueueEntry.bulk bulkE :: []) 10 [] 8
        metrics0 []).loaderIteration HttpOutcome.osError).1.metrics
       = metrics0) :=
  ⟨by decide,
   C10_empty_bulk_never_delivered bulkE [] 10 [] 8 metrics0 []
     HttpOutcome.osError (by decide)⟩

/-! Helper lemmas about flush, the periodic pass over the open-bulk map. -/

theorem foldl_enqueue_output_queue (l : List ElasticSearchBulk) :
    ∀ s : ElasticSearchConnection,
      (l.foldl ElasticSearchConnection.enqueue s).output_queue
        = s.output_queue ++ l.map QueueEntry.bulk := by
  induction l with
  | nil => intro s; simp
  | cons x xs ih =>
      intro s
      simp [List.foldl_cons, ih, enqueue_output_queue]

theorem foldl_enqueue_bulks (l : List ElasticSearchBulk) :
    ∀ s : ElasticSearchConnection,
      (l.foldl ElasticSearchConnection.enqueue s).bulks = s.bulks := by
  induction l with
  | nil => intro s; rfl
  | cons x xs ih =>
      intro s
      simp [List.foldl_cons, ih, enqueue_bulks]

theorem flush_bulks (s : ElasticSearchConnection) (forced : Bool) :
    (s.flush forced).bulks
      = (s.bulks.map (fun p => (p.1, { p.2 with Aging := p.2.Aging + 1 }))).filter
          (fun p => !(decide (2 ≤ p.2.Aging) || forced)) := by
  unfold ElasticSearchConnection.flush
  simp [foldl_enqueue_bulks]

theorem flush_output_queue (s : ElasticSearchConnection) (forced : Bool) :
    (s.flush forced).output_queue
      = s.output_queue ++
        ((s.bulks.map (fun p => (p.1, { p.2 with Aging := p.2.Aging + 1 }))).filter
            (fun p => decide (2 ≤ p.2.Aging) || forced)).map
          (fun p => QueueEntry.bulk p.2) := by
  unfold ElasticSearchConnection.flush
  simp [foldl_enqueue_output_queue, List.map_map]

theorem aged_map_keys (l : List (String × ElasticSearchBulk)) :
    (l.map (fun p => (p.1, { p.2 with Aging := p.2.Aging + 1 }))).map Prod.fst
      = l.map Prod.fst := by
  induction l with
  | nil => rfl
  | cons p t ih => simp [ih]

theorem flush_keys_sublist (s : ElasticSearchConnection) (forced : Bool) :
    ((s.flush forced).bulks.map Prod.fst).Sublist (s.bulks.map Prod.fst) := by
  rw [flush_bulks]
  have h1 := (List.filter_sublist
    (l := s.bulks.map (fun p => (p.1, { p.2 with Aging := p.2.Aging + 1 })))
    (p := fun p => !(decide (2 ≤ p.2.Aging) || forced))).map Prod.fst
  rwa [aged_map_keys] at h1

theorem mem_aged_map (l : List (String × ElasticSearchBulk)) (idx : String)
    (c : ElasticSearchBulk)
    (h : (idx, c) ∈ l.map (fun p => (p.1, { p.2 with Aging := p.2.Aging + 1 }))) :
    ∃ d, (idx, d) ∈ l ∧ c = { d with Aging := d.Aging + 1 } := by
  rcases List.mem_map.mp h with ⟨p, hp, he⟩
  obtain ⟨p1, p2⟩ := p
  injection he with e1 e2
  subst e1
  exact ⟨p2, hp, e2.symm⟩

theorem nodup_key_unique {α : Type} :
    ∀ (l : List (String × α)) (k : String) (a b : α),
      (l.map Prod.fst).Nodup → (k, a) ∈ l → (k, b) ∈ l → a = b := by
  intro l
  induction l with
  | nil => intro k a b _ ha _; cases ha
  | cons p t ih =>
      intro k a b hnd ha hb
      obtain ⟨p1, p2⟩ := p
      rw [List.map_cons, List.nodup_cons] at hnd
      rcases List.mem_cons.mp ha with ha1 | ha1 <;>
        rcases List.mem_cons.mp hb with hb1 | hb1
      · injection ha1.trans hb1.symm
      · injection ha1 with e1 e2
        subst e1
        exact absurd (List.mem_map.mpr ⟨(k, b), hb1, rfl⟩) hnd.1
      · injection hb1 with e1 e2
        subst e1
        exact absurd (List.mem_map.mpr ⟨(k, a), ha1, rfl⟩) hnd.1
      · exact ih k a b hnd.2 ha1 hb1

theorem flush_removes_aged_key (s : ElasticSearchConnection) (idx : String)
    (b : ElasticSearchBulk)
    (hmem : (idx, b) ∈ s.bulks)
    (hnd : (s.bulks.map Prod.fst).Nodup)
    (hage : 1 ≤ b.Aging) :
    ∀ c, (idx, c) ∉ (s.flush false).bulks := by
  intro c hc
  rw [flush_bulks] at hc
  have hc' := List.mem_filter.mp hc
  obtain ⟨d, hd, hcd⟩ := mem_aged_map _ _ _ hc'.1
  have hdb : d = b := nodup_key_unique s.bulks idx d b hnd hd hmem
  subst hdb
  have h2 := hc'.2
  rw [hcd] at h2
  simp at h2
  omega

theorem flush_preserves_missing_key (s : ElasticSearchConnection)
    (forced : Bool) (idx : String)
    (h : ∀ c, (idx, c) ∉ s.bulks) :
    ∀ c, (idx, c) ∉ (s.flush forced).bulks := by
  intro c hc
  rw [flush_bulks] at hc
  obtain ⟨d, hd, _⟩ := mem_aged_map _ _ _ (List.mem_filter.mp hc).1
  exact h d hd

theorem flush_enqueues_aged (s : ElasticSearchConnection) (idx : String)
    (b : ElasticSearchBulk)
    (hmem : (idx, b) ∈ s.bulks)
    (hage : 1 ≤ b.Aging) :
    QueueEntry.bulk { b with Aging := b.Aging + 1 }
      ∈ (s.flush false).output_queue := by
  rw [flush_output_queue]
  refine List.mem_append.mpr (Or.inr ?_)
  refine List.mem_map.mpr ⟨(idx, { b with Aging := b.Aging + 1 }), ?_, rfl⟩
  refine List.mem_filter.mpr ⟨List.mem_map.mpr ⟨(idx, b), hmem, rfl⟩, ?_⟩
  simp
  omega

theorem flush_keeps_young (s : ElasticSearchConnection) (idx : String)
    (b : ElasticSearchBulk)
    (hmem : (idx, b) ∈ s.bulks)
    (hage : b.Aging = 0) :
    (idx, { b with Aging := b.Aging + 1 }) ∈ (s.flush false).bulks := by
  rw [flush_bulks]
  refine List.mem_filter.mpr ⟨List.mem_map.mpr ⟨(idx, b), hmem, rfl⟩, ?_⟩
  simp [hage]

theorem flush_queue_mono (s : ElasticSearchConnection) (forced : Bool)
    (x : QueueEntry) (h : x ∈ s.output_queue) :
    x ∈ (s.flush forced).output_queue := by
  rw [flush_output_queue]
  exact List.mem_append.mpr (Or.inl h)

/-- C8: an open batch that receives no new items for two consecutive
periodic flush passes is removed from the open-batch map and a batch with
the same Items, Index and Capacity is enqueued on the delivery queue, even
if the byte capacity was never exhausted. -/
theorem C8_aged_bulk_sealed_and_enqueued (s : ElasticSearchConnection)
    (idx : String) (b : ElasticSearchBulk)
    (hmem : (idx, b) ∈ s.bulks)
    (hnd : (s.bulks.map Prod.fst).Nodup) :
    (∀ b', (idx, b') ∉ ((s.flush false).flush false).bulks) ∧
    (∃ b', QueueEntry.bulk b' ∈ ((s.flush false).flush false).output_queue ∧
      b'.Items = b.Items ∧ b'.Index = b.Index ∧ b'.Capacity = b.Capacity) := by
  by_cases hage : 1 ≤ b.Aging
  · have hq1 := flush_enqueues_aged s idx b hmem hage
    have hq2 := flush_queue_mono (s.flush false) false _ hq1
    have hrm := flush_removes_aged_key s idx b hmem hnd hage
    exact ⟨fun b' => flush_preserves_missing_key (s.flush false) false idx hrm b',
      ⟨{ b with Aging := b.Aging + 1 }, hq2, rfl, rfl, rfl⟩⟩
  · have hage0 : b.Aging = 0 := by omega
    have hnd1 : ((s.flush false).bulks.map Prod.fst).Nodup :=
      (flush_keys_sublist s false).nodup hnd
    have hk1 := flush_keeps_young s idx b hmem hage0
    have hage1 : 1 ≤ ({ b with Aging := b.Aging + 1 } : ElasticSearchBulk).Aging := by
      simp
    have hq2 := flush_enqueues_aged (s.flush false) idx _ hk1 hage1
    have hrm2 := flush_removes_aged_key (s.flush false) idx _ hk1 hnd1 hage1
    exact ⟨hrm2,
      ⟨{ b with Aging := b.Aging + 1 + 1 }, hq2, rfl, rfl, rfl⟩⟩

/-- C8 witness: a connection holding one fresh open bulk under index "a":
after two periodic flushes the index is gone from the open map and a bulk
with the same Items, Index and Capacity sits in the delivery queue. -/
theorem C8_aged_bulk_sealed_and_enqueued_witness :
    (("a", bulkA) ∈ connC8.bulks ∧ (connC8.bulks.map Prod.fst).Nodup) ∧
    ((∀ b', ("a", b') ∉ ((connC8.flush false).flush false).bulks) ∧
     (∃ b', QueueEntry.bulk b'
          ∈ ((connC8.flush false).flush false).output_queue ∧
        b'.Items = bulkA.Items ∧ b'.Index = bulkA.Index ∧
        b'.Capacity = bulkA.Capacity)) :=
  ⟨⟨List.mem_singleton.mpr rfl, by simp [connC8]⟩,
   C8_aged_bulk_sealed_and_enqueued connC8 "a" bulkA
     (List.mem_singleton.mpr rfl) (by simp [connC8])⟩

end BSPump
